import Mathlib

/-!
Verification of the Analysis Orchestration Core of the editor-extensions
repository: the file-based LLM cache (modelProvider/cache), the batched
analysis trigger (analysis/batchedAnalysisTrigger) and the analyzer client
(client/analyzerClient).  Each definition is a shallow embedding of the
corresponding TypeScript function; external library functions (langchain
message conversions, JSON, sha256) are modelled at the level of the values
they exchange.
-/

namespace EditorExt

/-- Message role tags of langchain chat messages (the getType values). -/
inductive MessageRole
  | system
  | human
  | ai
  | tool
  | generic
  deriving DecidableEq, Repr

/-- Shallow embedding of a langchain BaseMessage: a role together with its
textual content. -/
structure BaseMessage where
  role : MessageRole
  content : String
  deriving DecidableEq, Repr

/-- The langchain HumanMessage constructor applied to a string. -/
def HumanMessage (s : String) : BaseMessage :=
  { role := MessageRole.human, content := s }

/-- Shallow embedding of a langchain StoredMessage (the serialized form of a
chat message). -/
structure StoredMessage where
  type : MessageRole
  content : String
  deriving DecidableEq, Repr

/-- The langchain mapChatMessagesToStoredMessages conversion. -/
def mapChatMessagesToStoredMessages (msgs : List BaseMessage) : List StoredMessage :=
  msgs.map fun m => { type := m.role, content := m.content }

/-- The langchain mapStoredMessagesToChatMessages conversion. -/
def mapStoredMessagesToChatMessages (msgs : List StoredMessage) : List BaseMessage :=
  msgs.map fun s => { role := s.type, content := s.content }

/-- A langchain prompt value: an object exposing toChatMessages.  Only the
message list it converts to is relevant to the cache. -/
structure BasePromptValueInterface where
  toChatMessages : List BaseMessage
  deriving DecidableEq, Repr

/-- One element of a list-shaped BaseLanguageModelInput.  The unsupported
constructor stands for any item that is neither a message, a prompt value
nor a string; serialize drops such items (flatMap returning undefined
followed by filter(Boolean)). -/
inductive LangItem
  | message (m : BaseMessage)
  | promptValue (p : BasePromptValueInterface)
  | text (s : String)
  | unsupported
  deriving DecidableEq, Repr

/-- Shallow embedding of BaseLanguageModelInput (or a bare BaseMessage), the
input type of serialize in modelProvider/cache.  The unsupported constructor
stands for any data of a shape serialize does not handle, for which the
source throws. -/
inductive BaseLanguageModelInput
  | message (m : BaseMessage)
  | text (s : String)
  | promptValue (p : BasePromptValueInterface)
  | items (l : List LangItem)
  | unsupported
  deriving DecidableEq, Repr

/-- The per-item step of the Array branch of serialize: a message maps to
itself, a prompt value to its chat messages, a string to a HumanMessage, and
anything else to undefined (dropped by filter(Boolean)). -/
def serializeListItem : LangItem → List BaseMessage
  | LangItem.message m => [m]
  | LangItem.promptValue p => p.toChatMessages
  | LangItem.text s => [HumanMessage s]
  | LangItem.unsupported => []

/-- Shallow embedding of serialize from modelProvider/cache: every supported
input shape is reduced to one normalized StoredMessage list; unsupported data
makes the source throw, embedded as an error value. -/
def serialize : BaseLanguageModelInput → Except String (List StoredMessage)
  | BaseLanguageModelInput.message m => Except.ok (mapChatMessagesToStoredMessages [m])
  | BaseLanguageModelInput.text s => Except.ok (mapChatMessagesToStoredMessages [HumanMessage s])
  | BaseLanguageModelInput.promptValue p =>
      Except.ok (mapChatMessagesToStoredMessages p.toChatMessages)
  | BaseLanguageModelInput.items l =>
      Except.ok (mapChatMessagesToStoredMessages (l.flatMap serializeListItem))
  | BaseLanguageModelInput.unsupported => Except.error "Unable to serialize data"

/-- The instanceof-BaseMessage branch of serialize, used by update on the
cached LLM response. -/
def serializeBaseMessage (m : BaseMessage) : List StoredMessage :=
  mapChatMessagesToStoredMessages [m]

/-- Textual rendering of a message role. -/
def roleToString : MessageRole → String
  | MessageRole.system => "system"
  | MessageRole.human => "human"
  | MessageRole.ai => "ai"
  | MessageRole.tool => "tool"
  | MessageRole.generic => "generic"

/-- Model of JSON.stringify applied to a StoredMessage array.  The cache
claims depend only on this being a function of the message list, so a simple
deterministic rendering suffices. -/
def jsonStringifyStored (msgs : List StoredMessage) : String :=
  String.intercalate ";" (msgs.map fun s => roleToString s.type ++ ":" ++ s.content)

/-- Shallow embedding of hash from modelProvider/cache: the sha256 hex
digest (modelled by the digest parameter) of the serialized input, truncated
to 16 characters.  A serialization error propagates (caught by the callers
of hash inside their try blocks). -/
def hash (digest : String → String) (input : BaseLanguageModelInput) :
    Except String String :=
  (serialize input).map fun msgs => (digest (jsonStringifyStored msgs)).take 16

end EditorExt

namespace EditorExt

/-- JSON values, as produced by JSON.parse on the contents of a cache file. -/
inductive Json
  | null
  | str (s : String)
  | num (n : Int)
  | boolean (b : Bool)
  | arr (items : List Json)
  | obj (fields : List (String × Json))

/-- JSON rendering of one StoredMessage. -/
def storedMessageToJson (m : StoredMessage) : Json :=
  Json.obj [("type", Json.str (roleToString m.type)), ("content", Json.str m.content)]

/-- JSON rendering of a StoredMessage array, the shape written by update. -/
def storedMessagesToJson (msgs : List StoredMessage) : Json :=
  Json.arr (msgs.map storedMessageToJson)

/-- Field lookup inside a parsed JSON object. -/
def getField (fields : List (String × Json)) (k : String) : Option Json :=
  (fields.find? fun f => f.1 == k).map fun f => f.2

/-- Inverse of roleToString on the strings it produces. -/
def stringToRole (s : String) : Option MessageRole :=
  if s == "system" then some MessageRole.system
  else if s == "human" then some MessageRole.human
  else if s == "ai" then some MessageRole.ai
  else if s == "tool" then some MessageRole.tool
  else if s == "generic" then some MessageRole.generic
  else none

/-- Decoding one array element back into a StoredMessage; a malformed
element makes mapStoredMessagesToChatMessages throw in the source. -/
def jsonToStoredMessage : Json → Except String StoredMessage
  | Json.obj fields =>
    match getField fields "type", getField fields "content" with
    | some (Json.str t), some (Json.str c) =>
      match stringToRole t with
      | some r => Except.ok { type := r, content := c }
      | none => Except.error "unknown message type"
    | _, _ => Except.error "malformed stored message"
  | _ => Except.error "malformed stored message"

/-- Decoding a parsed JSON array element-wise into StoredMessages. -/
def decodeStoredMessages : List Json → Except String (List StoredMessage)
  | [] => Except.ok []
  | j :: rest =>
    match jsonToStoredMessage j with
    | Except.error e => Except.error e
    | Except.ok m =>
      match decodeStoredMessages rest with
      | Except.error e => Except.error e
      | Except.ok t => Except.ok (m :: t)

/-- Shallow embedding of deserialize from modelProvider/cache: the parsed
JSON must be an array (Array.isArray check), whose elements are converted by
mapStoredMessagesToChatMessages; anything else throws. -/
def deserialize : Json → Except String (List BaseMessage)
  | Json.arr items =>
    match decodeStoredMessages items with
    | Except.error e => Except.error e
    | Except.ok msgs => Except.ok (mapStoredMessagesToChatMessages msgs)
  | _ => Except.error "Unable to deserialize data"

/-- What the file system holds at a path: the path can name a directory
(stat succeeds but isFile is false), an unreadable file (readFile throws), a
file whose contents do not parse as JSON (JSON.parse throws), or a file
holding a parsed JSON value.  A missing path makes stat throw. -/
inductive FileEntry
  | directory
  | unreadable
  | corrupt (raw : String)
  | jsonFile (v : Json)

/-- The disk, as a map from path components to entries. -/
def FileSystem : Type := List String → Option FileEntry

/-- fs.writeFile: after writing, the path holds the entry. -/
def writeFS (fs : FileSystem) (path : List String) (e : FileEntry) : FileSystem :=
  fun p => if p = path then some e else fs p

/-- Shallow embedding of FileBasedLLMCache.lookup.  The whole body sits in a
try block whose catch logs and falls through to return undefined, so every
failure (unserializable input, missing file, unreadable file, parse or
deserialize error) yields none; a stat hit that is not a regular file skips
the read and also yields none. -/
def lookup (digest : String → String) (fs : FileSystem) (cacheDir : Option String)
    (input : BaseLanguageModelInput) (cacheKey : String) : Option (List BaseMessage) :=
  match cacheDir with
  | none => none
  | some dir =>
    match hash digest input with
    | Except.error _ => none
    | Except.ok h =>
      match fs [dir, cacheKey, h, "output.json"] with
      | none => none
      | some FileEntry.directory => none
      | some FileEntry.unreadable => none
      | some (FileEntry.corrupt _) => none
      | some (FileEntry.jsonFile v) =>
        match deserialize v with
        | Except.error _ => none
        | Except.ok msgs => some msgs

/-- Shallow embedding of FileBasedLLMCache.update together with the helper
writeInputAndOutputRecord.  The writeFails parameter models I/O errors of
the two fs.writeFile calls; any error is caught, leaving the cache path
undefined.  The result is the file system after the call together with the
returned cache path (dirname of the output record). -/
def update (digest : String → String) (writeFails : List String → Bool)
    (fs : FileSystem) (cacheDir : Option String) (input : BaseLanguageModelInput)
    (cacheKey : String) (value : BaseMessage) : FileSystem × Option (List String) :=
  match cacheDir with
  | none => (fs, none)
  | some dir =>
    match hash digest input, serialize input with
    | Except.ok h, Except.ok storedInput =>
      let base := [dir, cacheKey, h]
      let inputPath := base ++ ["input.json"]
      let outputPath := base ++ ["output.json"]
      if writeFails inputPath then (fs, none)
      else
        let fs1 := writeFS fs inputPath (FileEntry.jsonFile (storedMessagesToJson storedInput))
        if writeFails outputPath then (fs1, none)
        else
          (writeFS fs1 outputPath
              (FileEntry.jsonFile (storedMessagesToJson (serializeBaseMessage value))),
            some base)
    | _, _ => (fs, none)

end EditorExt

namespace EditorExt

theorem jsonToStoredMessage_round (m : StoredMessage) :
    jsonToStoredMessage (storedMessageToJson m) = Except.ok m := by
  cases m with
  | mk t c => cases t <;> rfl

theorem decodeStoredMessages_round (l : List StoredMessage) :
    decodeStoredMessages (l.map storedMessageToJson) = Except.ok l := by
  induction l with
  | nil => rfl
  | cons a t ih =>
    simp [decodeStoredMessages, jsonToStoredMessage_round, ih]

theorem deserialize_round (l : List StoredMessage) :
    deserialize (storedMessagesToJson l)
      = Except.ok (mapStoredMessagesToChatMessages l) := by
  simp [deserialize, storedMessagesToJson, decodeStoredMessages_round]

theorem flatMap_message_items (l : List BaseMessage) :
    (l.map LangItem.message).flatMap serializeListItem = l := by
  induction l with
  | nil => rfl
  | cons a t ih =>
    simp only [List.map_cons, List.flatMap_cons, serializeListItem, ih,
      List.singleton_append]

/-- C5: two cache inputs whose canonical serialization produces the same
normalized StoredMessage list receive the same cache key, for any digest
function; in particular a plain string hashes like the single-element list
holding the corresponding HumanMessage, and a prompt value hashes like the
list of messages it converts to. -/
theorem hash_respects_canonicalization (digest : String → String) :
    (∀ a b : BaseLanguageModelInput,
        serialize a = serialize b → hash digest a = hash digest b)
    ∧ (∀ s : String,
        hash digest (BaseLanguageModelInput.text s)
          = hash digest (BaseLanguageModelInput.items [LangItem.message (HumanMessage s)]))
    ∧ (∀ p : BasePromptValueInterface,
        hash digest (BaseLanguageModelInput.promptValue p)
          = hash digest
              (BaseLanguageModelInput.items (p.toChatMessages.map LangItem.message))) := by
  refine ⟨fun a b h => by simp only [hash, h], fun s => ?_, fun p => ?_⟩
  · simp [hash, serialize, serializeListItem]
  · simp [hash, serialize, flatMap_message_items]

theorem hash_respects_canonicalization_witness :
    hash (fun s => s) (BaseLanguageModelInput.text "hi")
      = hash (fun s => s)
          (BaseLanguageModelInput.items [LangItem.message (HumanMessage "hi")]) :=
  (hash_respects_canonicalization (fun s => s)).1 _ _ rfl

/-- C6: after update succeeds (returns a cache path), lookup with the same
input and cache key returns exactly the serialize and deserialize round trip
of the stored response, provided the cache directory is not modified in
between. -/
theorem lookup_after_update_roundtrip (digest : String → String)
    (writeFails : List String → Bool) (fs : FileSystem) (dir cacheKey : String)
    (input : BaseLanguageModelInput) (value : BaseMessage) (p : List String)
    (h : (update digest writeFails fs (some dir) input cacheKey value).2 = some p) :
    lookup digest (update digest writeFails fs (some dir) input cacheKey value).1
        (some dir) input cacheKey
      = some (mapStoredMessagesToChatMessages (serializeBaseMessage value)) := by
  cases hs : serialize input with
  | error e =>
    simp [update, hash, hs, Except.map] at h
  | ok storedInput =>
    have hh : hash digest input
        = Except.ok ((digest (jsonStringifyStored storedInput)).take 16) := by
      simp [hash, hs, Except.map]
    by_cases hw1 : writeFails [dir, cacheKey,
        (digest (jsonStringifyStored storedInput)).take 16, "input.json"]
    · simp [update, hh, hs, hw1] at h
    · by_cases hw2 : writeFails [dir, cacheKey,
          (digest (jsonStringifyStored storedInput)).take 16, "output.json"]
      · simp [update, hh, hs, hw1, hw2] at h
      · simp [update, hh, hs, hw1, hw2, lookup, writeFS, deserialize_round]

theorem lookup_after_update_roundtrip_witness :
    lookup (fun s => s)
        (update (fun s => s) (fun _ => false) (fun _ => none) (some "c")
            (BaseLanguageModelInput.text "hi") "k" (HumanMessage "out")).1
        (some "c") (BaseLanguageModelInput.text "hi") "k"
      = some (mapStoredMessagesToChatMessages (serializeBaseMessage (HumanMessage "out"))) :=
  lookup_after_update_roundtrip (fun s => s) (fun _ => false) (fun _ => none)
    "c" "k" (BaseLanguageModelInput.text "hi") (HumanMessage "out")
    ["c", "k", "human:hi"] rfl

/-- C7: every failure mode of the cache degrades to a miss instead of
propagating: an unserializable input, a missing output file, a stat hit that
is not a regular file, an unreadable file, contents that fail to parse, and
contents that fail to deserialize all make lookup return undefined; an
unserializable input or a failing write makes update return undefined. -/
theorem cache_errors_degrade_to_miss (digest : String → String)
    (writeFails : List String → Bool) (fs : FileSystem) (dir cacheKey : String)
    (input : BaseLanguageModelInput) (value : BaseMessage) :
    (∀ e, serialize input = Except.error e →
        lookup digest fs (some dir) input cacheKey = none
        ∧ (update digest writeFails fs (some dir) input cacheKey value).2 = none)
    ∧ (∀ h, hash digest input = Except.ok h →
        (fs [dir, cacheKey, h, "output.json"] = none →
            lookup digest fs (some dir) input cacheKey = none)
        ∧ (fs [dir, cacheKey, h, "output.json"] = some FileEntry.directory →
            lookup digest fs (some dir) input cacheKey = none)
        ∧ (fs [dir, cacheKey, h, "output.json"] = some FileEntry.unreadable →
            lookup digest fs (some dir) input cacheKey = none)
        ∧ (∀ raw, fs [dir, cacheKey, h, "output.json"] = some (FileEntry.corrupt raw) →
            lookup digest fs (some dir) input cacheKey = none)
        ∧ (∀ v e, fs [dir, cacheKey, h, "output.json"] = some (FileEntry.jsonFile v) →
            deserialize v = Except.error e →
            lookup digest fs (some dir) input cacheKey = none)
        ∧ (writeFails [dir, cacheKey, h, "input.json"] = true →
            (update digest writeFails fs (some dir) input cacheKey value).2 = none)
        ∧ (writeFails [dir, cacheKey, h, "input.json"] = false →
            writeFails [dir, cacheKey, h, "output.json"] = true →
            (update digest writeFails fs (some dir) input cacheKey value).2 = none)) := by
  constructor
  · intro e he
    constructor
    · simp [lookup, hash, he, Except.map]
    · simp [update, hash, he, Except.map]
  · intro h hh
    cases hs : serialize input with
    | error e => simp [hash, hs, Except.map] at hh
    | ok storedInput =>
      have hkey : (digest (jsonStringifyStored storedInput)).take 16 = h := by
        simpa [hash, hs, Except.map] using hh
      refine ⟨fun hfs => ?_, fun hfs => ?_, fun hfs => ?_, fun raw hfs => ?_,
        fun v e hfs hd => ?_, fun hw => ?_, fun hw1 hw2 => ?_⟩
      · simp [lookup, hh, hfs]
      · simp [lookup, hh, hfs]
      · simp [lookup, hh, hfs]
      · simp [lookup, hh, hfs]
      · simp [lookup, hh, hfs, hd]
      · simp [update, hash, hs, Except.map, hkey, hw]
      · simp [update, hash, hs, Except.map, hkey, hw1, hw2]

theorem cache_errors_degrade_to_miss_witness :
    lookup (fun s => s) (fun _ => none) (some "c")
        (BaseLanguageModelInput.text "hi") "k" = none :=
  ((cache_errors_degrade_to_miss (fun s => s) (fun _ => false) (fun _ => none)
      "c" "k" (BaseLanguageModelInput.text "hi") (HumanMessage "o")).2
    "human:hi" rfl).1 rfl

end EditorExt

namespace EditorExt

/-- Server states of the analyzer supervisor (the shared ServerState union,
including the connection states used by AnalyzerClient.start). -/
inductive ServerState
  | initial
  | configurationNeeded
  | configurationReady
  | starting
  | establishingConnection
  | connectionEstablished
  | running
  | stopping
  | stopped
  | startFailed
  deriving DecidableEq, Repr

/-- Solution states of the shared SolutionState union. -/
inductive SolutionState
  | noSolution
  | started
  | sent
  | received
  | failedOnStart
  | failedOnSending
  deriving DecidableEq, Repr

/-- A chat message as pushed onto the extension data.  The kind and value
payloads are opaque to the claims and kept as strings. -/
structure ChatMessage where
  messageToken : Option String
  kind : String
  value : String
  timestamp : Option String
  deriving DecidableEq, Repr

/-- A vscode Uri, reduced to the fsPath the client reads from it. -/
structure Uri where
  fsPath : String
  deriving DecidableEq, Repr

/-- The slice of the shared ExtensionData the analyzer client reads and
mutates.  Rule sets are opaque payloads. -/
structure ExtensionData where
  isAnalyzing : Bool
  isFetchingSolution : Bool
  isStartingServer : Bool
  serverState : ServerState
  solutionState : SolutionState
  chatMessages : List ChatMessage
  ruleSets : List String
  deriving DecidableEq, Repr

/-- AnalyzerClient.fireServerStateChange: mutateExtensionData applies the
recipe synchronously (immer produce in extension.ts), setting serverState
and isStartingServer. -/
def fireServerStateChange (d : ExtensionData) (s : ServerState) : ExtensionData :=
  { d with serverState := s, isStartingServer := s == ServerState.starting }

/-- AnalyzerClient.fireAnalysisStateChange. -/
def fireAnalysisStateChange (d : ExtensionData) (flag : Bool) : ExtensionData :=
  { d with isAnalyzing := flag }

/-- The chat message actually pushed by addSolutionChatMessage: the token is
defaulted from the uid counter and a timestamp is added. -/
def stampedMessage (m : ChatMessage) (uidToken now : String) : ChatMessage :=
  { m with messageToken := some (m.messageToken.getD uidToken), timestamp := some now }

/-- AnalyzerClient.addSolutionChatMessage, the handler body behind the
inbound my_progress notification.  The uidToken parameter stands for the
uid("scm") counter value and now for the current timestamp. -/
def addSolutionChatMessage (d : ExtensionData) (m : ChatMessage)
    (uidToken now : String) : ExtensionData :=
  if d.solutionState ≠ SolutionState.sent then d
  else
    { d with chatMessages := d.chatMessages ++ [stampedMessage m uidToken now] }

/-- The analysis_engine.Analyze request parameters built by runAnalysis. -/
structure AnalyzeRequestParams where
  labelSelector : String
  includedPaths : Option (List String)
  resetCache : Bool
  deriving DecidableEq, Repr

/-- The requestParams object of AnalyzerClient.runAnalysis: included_paths
maps the given uris to fsPaths (undefined stays undefined) and reset_cache
is the negation of filePaths being present and non-empty. -/
def requestParams (labelSelector : String) (filePaths : Option (List Uri)) :
    AnalyzeRequestParams :=
  { labelSelector := labelSelector
    includedPaths := filePaths.map (List.map Uri.fsPath)
    resetCache :=
      !(match filePaths with
        | some l => decide (0 < l.length)
        | none => false) }

/-- How one call to runAnalysis plays out once the request phase is reached:
the user may cancel before the request is sent or while waiting, the RPC may
fail, or a response (well formed or not) arrives. -/
inductive AnalysisRunOutcome
  | cancelledBeforeSend
  | cancelledDuringWait
  | rpcError
  | response (wellFormed : Bool) (ruleSets : List String)
  deriving DecidableEq, Repr

/-- Observable result of one runAnalysis call: the extension data afterwards,
the Analyze requests sent over the connection, and the rule sets handed to
the konveyor.loadRuleSets command (if any). -/
structure AnalysisRunResult where
  data : ExtensionData
  sentRequests : List AnalyzeRequestParams
  loadedRuleSets : Option (List String)
  deriving DecidableEq, Repr

/-- Shallow embedding of AnalyzerClient.runAnalysis.  The guard returns
immediately unless the server state is running and an RPC connection exists;
otherwise the isAnalyzing flag is raised for the duration and the single
Analyze request is sent unless the user cancelled before the send. -/
def runAnalysis (d : ExtensionData) (hasConnection : Bool) (labelSelector : String)
    (filePaths : Option (List Uri)) (o : AnalysisRunOutcome) : AnalysisRunResult :=
  if d.serverState ≠ ServerState.running ∨ hasConnection = false then
    { data := d, sentRequests := [], loadedRuleSets := none }
  else
    let d1 := fireAnalysisStateChange d true
    let ps := requestParams labelSelector filePaths
    match o with
    | AnalysisRunOutcome.cancelledBeforeSend =>
      { data := fireAnalysisStateChange d1 false, sentRequests := []
        loadedRuleSets := none }
    | AnalysisRunOutcome.cancelledDuringWait =>
      { data := fireAnalysisStateChange d1 false, sentRequests := [ps]
        loadedRuleSets := none }
    | AnalysisRunOutcome.rpcError =>
      { data := fireAnalysisStateChange d1 false, sentRequests := [ps]
        loadedRuleSets := none }
    | AnalysisRunOutcome.response wellFormed ruleSets =>
      if wellFormed then
        { data := fireAnalysisStateChange d1 false, sentRequests := [ps]
          loadedRuleSets := some ruleSets }
      else
        { data := fireAnalysisStateChange d1 false, sentRequests := [ps]
          loadedRuleSets := none }

/-- How the spawned analyzer process behaves before the readiness race is
decided: an error event, an exit before the readiness line, the readiness
line on stderr, or nothing until the 30 second timeout. -/
inductive SpawnOutcome
  | spawnError
  | exitBeforeReady
  | ready
  | timeout
  deriving DecidableEq, Repr

/-- Shallow embedding of AnalyzerClient.startProcessAndLogStderr: the server
state changes fired while waiting on the readiness race, and whether the
wait succeeded (on failure the source throws).  When the readiness line is
matched, the stderr data handler synchronously fires the running state right
after emitting serverReportsReady, before the awaited race continuation can
resume. -/
def startProcessAndLogStderr : SpawnOutcome → List ServerState × Bool
  | SpawnOutcome.ready => ([ServerState.running], true)
  | SpawnOutcome.spawnError => ([ServerState.startFailed], false)
  | SpawnOutcome.exitBeforeReady => ([ServerState.startFailed], false)
  | SpawnOutcome.timeout => ([], false)

/-- Shallow embedding of AnalyzerClient.start as the sequence of server
state changes it causes, together with whether it returns normally.  A
failing configuration check returns before any state change; a process
failure fires startFailed (after whatever the process handlers fired) and
throws; otherwise the connection is created and starting is followed by
establishingConnection and connectionEstablished. -/
def start (canAnalyze : Bool) (o : SpawnOutcome) : List ServerState × Bool :=
  if canAnalyze = false then ([], false)
  else
    let proc := startProcessAndLogStderr o
    if proc.2 = false then
      ([ServerState.starting] ++ proc.1 ++ [ServerState.startFailed], false)
    else
      ([ServerState.starting] ++ proc.1
        ++ [ServerState.establishingConnection, ServerState.connectionEstablished], true)

/-- Shallow embedding of AnalyzerClient.shutdown: the RPC requests it sends
and whether an error from the Stop request was caught and logged.  The guard
only lets the connectionEstablished and running states through; any error of
the request is swallowed (the function always returns normally). -/
def shutdown (d : ExtensionData) (hasConnection : Bool) (rpcStopFails : Bool) :
    List String × Bool :=
  match d.serverState with
  | ServerState.connectionEstablished | ServerState.running =>
    if hasConnection then (["analysis_engine.Stop"], rpcStopFails) else ([], false)
  | _ => ([], false)

/-- The analyzer rpc server process handle as stop sees it: absent, alive
(and either exiting within the 5 second grace period or not), or already
exited. -/
inductive ProcessHandle
  | noProcess
  | alive (exitsWithinTimeout : Bool)
  | exited (code : Int)
  deriving DecidableEq, Repr

/-- Observable result of AnalyzerClient.stop. -/
structure StopResult where
  data : ExtensionData
  sentRequests : List String
  connectionClosed : Bool
  killed : Bool
  deriving DecidableEq, Repr

/-- Shallow embedding of AnalyzerClient.stop: it fires stopping, then awaits
shutdown, then ends and disposes the connection, races process exit against
the 5 second timeout, kills the process if its exit code is still null, and
fires stopped.  Because fireServerStateChange mutates the shared data
synchronously before shutdown runs, shutdown reads the stopping state. -/
def stop (d : ExtensionData) (hasConnection : Bool) (proc : ProcessHandle)
    (rpcStopFails : Bool) : StopResult :=
  let d1 := fireServerStateChange d ServerState.stopping
  let sh := shutdown d1 hasConnection rpcStopFails
  let killed :=
    match proc with
    | ProcessHandle.alive exitsWithinTimeout => !exitsWithinTimeout
    | _ => false
  { data := fireServerStateChange d1 ServerState.stopped
    sentRequests := sh.1
    connectionClosed := hasConnection
    killed := killed }

end EditorExt

namespace EditorExt

/-- A file change event consumed by the batched analysis trigger. -/
structure FileChange where
  path : Uri
  content : String
  saved : Bool
  deriving DecidableEq, Repr

/-- State of a BatchedAnalysisTrigger instance.  The two queues are the
notify map (a JS Map keyed by fsPath, insertion ordered) and the analyze set
(a JS Set of uris).  isAnalyzing mirrors extensionState.data.isAnalyzing.
Modelled from the spec: the BackoffManager class is not part of the sources,
only its call sites are; following spec section 4.2 its isRunningCallback
probe is a busy flag that is set exactly while that scheduler executes its
scheduled task, held here as one boolean per scheduler. -/
structure TriggerState where
  notifyFileChangesQueue : List (String × FileChange)
  analysisFileChangesQueue : List Uri
  isAnalyzing : Bool
  notifyCallbackRunning : Bool
  analysisCallbackRunning : Bool
  deriving DecidableEq, Repr

/-- JS Map.set: an existing key keeps its position and gets the new value, a
new key is appended. -/
def mapSet (m : List (String × FileChange)) (k : String) (v : FileChange) :
    List (String × FileChange) :=
  if m.any fun p => decide (p.1 = k) then
    m.map fun p => if p.1 = k then (k, v) else p
  else m ++ [(k, v)]

/-- JS Set.add: a member is kept once, a new element is appended. -/
def setAdd (s : List Uri) (u : Uri) : List Uri :=
  if u ∈ s then s else s ++ [u]

/-- Observable result of one notifyFileChanges call: the trigger state
afterwards and which of the two schedulers were asked to (re)schedule. -/
structure NotifyResult where
  state : TriggerState
  scheduledNotify : Bool
  scheduledAnalysis : Bool
  deriving DecidableEq, Repr

/-- Shallow embedding of BatchedAnalysisTrigger.notifyFileChanges: in hot
rerun mode the change is upserted into the notify map and its path added to
the analyze set; otherwise only a saved change has its path added to the
analyze set, and an unsaved change does nothing. -/
def notifyFileChanges (enableHotRerun : Bool) (st : TriggerState)
    (change : FileChange) : NotifyResult :=
  if enableHotRerun then
    { state := { st with
        notifyFileChangesQueue := mapSet st.notifyFileChangesQueue change.path.fsPath change
        analysisFileChangesQueue := setAdd st.analysisFileChangesQueue change.path }
      scheduledNotify := true
      scheduledAnalysis := true }
  else if change.saved then
    { state := { st with
        analysisFileChangesQueue := setAdd st.analysisFileChangesQueue change.path }
      scheduledNotify := false
      scheduledAnalysis := true }
  else
    { state := st, scheduledNotify := false, scheduledAnalysis := false }

/-- Observable result of one run of the flush callback scheduled by
scheduleNotifyFileChanges: the trigger state afterwards, the batched
notifyFileChanges peer calls performed, whether the callback rescheduled
itself, and whether it increased its backoff. -/
structure NotifyFlushResult where
  state : TriggerState
  peerCalls : List (List FileChange)
  rescheduled : Bool
  backoffIncreased : Bool
  deriving DecidableEq, Repr

/-- Shallow embedding of the callback body of
BatchedAnalysisTrigger.scheduleNotifyFileChanges.  If an analysis is in
progress or the analysis scheduler is busy it reschedules itself and
returns; with no unignored changes it returns; otherwise it sends one
batched peer call and, when the call succeeds (callFails is false), deletes
the sent keys from the notify map, increasing the backoff either way. -/
def notifyFlushCallback (ignoredUri : Uri → Bool) (callFails : Bool)
    (st : TriggerState) : NotifyFlushResult :=
  if st.isAnalyzing || st.analysisCallbackRunning then
    { state := st, peerCalls := [], rescheduled := true, backoffIncreased := false }
  else
    let changes := (st.notifyFileChangesQueue.map Prod.snd).filter
      fun c => !ignoredUri c.path
    if changes.length < 1 then
      { state := st, peerCalls := [], rescheduled := false, backoffIncreased := false }
    else if callFails then
      { state := st, peerCalls := [changes], rescheduled := false
        backoffIncreased := true }
    else
      let sentKeys := changes.map fun c => c.path.fsPath
      let remaining := st.notifyFileChangesQueue.filter
        fun p => !sentKeys.any (fun k => decide (k = p.1))
      { state := { st with notifyFileChangesQueue := remaining }
        peerCalls := [changes], rescheduled := false, backoffIncreased := true }

/-- Observable result of one run of the flush callback scheduled by
schedulePartialAnalysis. -/
structure AnalysisFlushResult where
  state : TriggerState
  analysisCalls : List (List Uri)
  rescheduled : Bool
  backoffIncreased : Bool
  deriving DecidableEq, Repr

/-- Shallow embedding of the callback body of
BatchedAnalysisTrigger.schedulePartialAnalysis.  If an analysis is in
progress or the notify scheduler is busy it reschedules itself and returns;
with no unignored changed files it returns; otherwise it sends one batched
runAnalysis call and, when the call succeeds, deletes the sent files from
the analyze set, increasing the backoff either way. -/
def analysisFlushCallback (ignoredUri : Uri → Bool) (callFails : Bool)
    (st : TriggerState) : AnalysisFlushResult :=
  if st.isAnalyzing || st.notifyCallbackRunning then
    { state := st, analysisCalls := [], rescheduled := true, backoffIncreased := false }
  else
    let changedFiles := st.analysisFileChangesQueue.filter fun u => !ignoredUri u
    if changedFiles.length < 1 then
      { state := st, analysisCalls := [], rescheduled := false, backoffIncreased := false }
    else if callFails then
      { state := st, analysisCalls := [changedFiles], rescheduled := false
        backoffIncreased := true }
    else
      let remaining := st.analysisFileChangesQueue.filter
        fun u => !changedFiles.any (fun v => decide (v = u))
      { state := { st with analysisFileChangesQueue := remaining }
        analysisCalls := [changedFiles], rescheduled := false, backoffIncreased := true }

end EditorExt

namespace EditorExt

/-- C1: whenever the notify flush callback fires while the isAnalyzing flag
is set or the analysis scheduler reports itself busy, it performs no peer
call, reschedules itself and leaves the trigger state untouched;
symmetrically, whenever the analysis flush callback fires while isAnalyzing
is set or the notify scheduler reports itself busy, it performs no analysis
call and reschedules itself — for every queue content reachable by any
interleaving of notifyFileChanges calls. -/
theorem flush_callbacks_mutual_exclusion (ignoredUri : Uri → Bool)
    (callFails : Bool) (st : TriggerState) :
    (st.isAnalyzing = true ∨ st.analysisCallbackRunning = true →
        notifyFlushCallback ignoredUri callFails st
          = { state := st, peerCalls := [], rescheduled := true,
              backoffIncreased := false })
    ∧ (st.isAnalyzing = true ∨ st.notifyCallbackRunning = true →
        analysisFlushCallback ignoredUri callFails st
          = { state := st, analysisCalls := [], rescheduled := true,
              backoffIncreased := false }) := by
  constructor
  · rintro (h | h) <;> simp [notifyFlushCallback, h]
  · rintro (h | h) <;> simp [analysisFlushCallback, h]

theorem flush_callbacks_mutual_exclusion_witness :
    notifyFlushCallback (fun _ => false) false
        { notifyFileChangesQueue :=
            [("a.java", { path := { fsPath := "a.java" }, content := "c", saved := true })]
          analysisFileChangesQueue := [], isAnalyzing := true
          notifyCallbackRunning := false, analysisCallbackRunning := false }
      = { state :=
            { notifyFileChangesQueue :=
                [("a.java", { path := { fsPath := "a.java" }, content := "c", saved := true })]
              analysisFileChangesQueue := [], isAnalyzing := true
              notifyCallbackRunning := false, analysisCallbackRunning := false }
          peerCalls := [], rescheduled := true, backoffIncreased := false } :=
  (flush_callbacks_mutual_exclusion (fun _ => false) false
    { notifyFileChangesQueue :=
        [("a.java", { path := { fsPath := "a.java" }, content := "c", saved := true })]
      analysisFileChangesQueue := [], isAnalyzing := true
      notifyCallbackRunning := false, analysisCallbackRunning := false }).1
    (Or.inl rfl)

/-- C2 counterexample: a successful start (configuration valid, readiness
line seen before the timeout) fires its server state changes in a different
order from the claimed starting, establishingConnection,
connectionEstablished, running, and the last state observed after start
completes is not running. -/
theorem start_order_counterexample :
    (start true SpawnOutcome.ready).2 = true
    ∧ (start true SpawnOutcome.ready).1
        ≠ [ServerState.starting, ServerState.establishingConnection,
            ServerState.connectionEstablished, ServerState.running]
    ∧ (start true SpawnOutcome.ready).1.getLast? ≠ some ServerState.running := by
  decide

/-- C2 (amended): for every invocation of start that returns normally, the
server state changes occur in exactly the order starting, running (fired by
the stderr readiness handler when the readiness line is matched, before the
awaited readiness race resumes), establishingConnection,
connectionEstablished, so the state observed after start completes is
connectionEstablished. -/
theorem start_state_order (c : Bool) (o : SpawnOutcome)
    (h : (start c o).2 = true) :
    (start c o).1 = [ServerState.starting, ServerState.running,
        ServerState.establishingConnection, ServerState.connectionEstablished]
    ∧ (start c o).1.getLast? = some ServerState.connectionEstablished := by
  cases c <;> cases o <;> simp_all [start, startProcessAndLogStderr]

theorem start_state_order_witness :
    (start true SpawnOutcome.ready).1 = [ServerState.starting, ServerState.running,
        ServerState.establishingConnection, ServerState.connectionEstablished]
    ∧ (start true SpawnOutcome.ready).1.getLast?
        = some ServerState.connectionEstablished :=
  start_state_order true SpawnOutcome.ready rfl

/-- C3: evaluated at the failing input (stop called while the server state
is running, with a live connection and a responsive process), stop sends no
RPC request at all — the stopping transition it fires first makes the guard
inside shutdown fail — although shutdown invoked directly in the running
state would send the analysis_engine.Stop request. -/
theorem stop_sends_no_shutdown_request :
    (stop
        { isAnalyzing := false, isFetchingSolution := false, isStartingServer := false
          serverState := ServerState.running, solutionState := SolutionState.noSolution
          chatMessages := [], ruleSets := [] }
        true (ProcessHandle.alive true) false).sentRequests = []
    ∧ shutdown
        { isAnalyzing := false, isFetchingSolution := false, isStartingServer := false
          serverState := ServerState.running, solutionState := SolutionState.noSolution
          chatMessages := [], ruleSets := [] }
        true false
      = (["analysis_engine.Stop"], false) := by
  decide

/-- C4: runAnalysis invoked while the server state is not running returns
without sending any RPC request and leaves the extension data — server
state, isAnalyzing flag and stored rule sets included — unchanged, for every
file path list and run outcome. -/
theorem runAnalysis_noop_when_not_running (d : ExtensionData)
    (hasConnection : Bool) (labelSelector : String)
    (filePaths : Option (List Uri)) (o : AnalysisRunOutcome)
    (h : d.serverState ≠ ServerState.running) :
    runAnalysis d hasConnection labelSelector filePaths o
      = { data := d, sentRequests := [], loadedRuleSets := none } := by
  simp [runAnalysis, h]

theorem runAnalysis_noop_when_not_running_witness :
    runAnalysis
        { isAnalyzing := false, isFetchingSolution := false, isStartingServer := false
          serverState := ServerState.stopped, solutionState := SolutionState.noSolution
          chatMessages := [], ruleSets := ["r"] }
        true "sel" (some [{ fsPath := "a.java" }]) AnalysisRunOutcome.rpcError
      = { data :=
            { isAnalyzing := false, isFetchingSolution := false, isStartingServer := false
              serverState := ServerState.stopped, solutionState := SolutionState.noSolution
              chatMessages := [], ruleSets := ["r"] }
          sentRequests := [], loadedRuleSets := none } :=
  runAnalysis_noop_when_not_running
    { isAnalyzing := false, isFetchingSolution := false, isStartingServer := false
      serverState := ServerState.stopped, solutionState := SolutionState.noSolution
      chatMessages := [], ruleSets := ["r"] }
    true "sel" (some [{ fsPath := "a.java" }]) AnalysisRunOutcome.rpcError
    (by decide)

/-- C8 counterexample: in non-hot mode a saved file change leaves the notify
map untouched (here it stays empty), although the claimed upsert would have
left it nonempty. -/
theorem notifyFileChanges_nonhot_counterexample :
    (notifyFileChanges false
        { notifyFileChangesQueue := [], analysisFileChangesQueue := []
          isAnalyzing := false, notifyCallbackRunning := false
          analysisCallbackRunning := false }
        { path := { fsPath := "a.java" }, content := "x", saved := true
        }).state.notifyFileChangesQueue = []
    ∧ mapSet [] "a.java"
        { path := { fsPath := "a.java" }, content := "x", saved := true } ≠ [] := by
  decide

/-- C8 (amended): in hot rerun mode notifyFileChanges upserts the event into
the notify map keyed by its path (latest wins) and adds the path to the
analyze set; in non-hot mode the notify map is left unchanged and the path
is added to the analyze set only when the saved flag is true, an unsaved
change leaving the whole state untouched. -/
theorem notifyFileChanges_behavior (st : TriggerState) (c : FileChange) :
    (notifyFileChanges true st c).state
      = { st with
          notifyFileChangesQueue := mapSet st.notifyFileChangesQueue c.path.fsPath c
          analysisFileChangesQueue := setAdd st.analysisFileChangesQueue c.path }
    ∧ (c.saved = true →
        (notifyFileChanges false st c).state
            = { st with
                analysisFileChangesQueue := setAdd st.analysisFileChangesQueue c.path }
          ∧ (notifyFileChanges false st c).state.notifyFileChangesQueue
              = st.notifyFileChangesQueue)
    ∧ (c.saved = false →
        notifyFileChanges false st c
          = { state := st, scheduledNotify := false, scheduledAnalysis := false }) := by
  refine ⟨rfl, fun h => ?_, fun h => ?_⟩
  · constructor <;> simp [notifyFileChanges, h]
  · simp [notifyFileChanges, h]

theorem notifyFileChanges_behavior_witness :
    (notifyFileChanges false
        { notifyFileChangesQueue := [], analysisFileChangesQueue := []
          isAnalyzing := false, notifyCallbackRunning := false
          analysisCallbackRunning := false }
        { path := { fsPath := "b.java" }, content := "y", saved := true }).state
      = { notifyFileChangesQueue := []
          analysisFileChangesQueue := setAdd [] { fsPath := "b.java" }
          isAnalyzing := false, notifyCallbackRunning := false
          analysisCallbackRunning := false }
    ∧ (notifyFileChanges false
        { notifyFileChangesQueue := [], analysisFileChangesQueue := []
          isAnalyzing := false, notifyCallbackRunning := false
          analysisCallbackRunning := false }
        { path := { fsPath := "b.java" }, content := "y", saved := true
        }).state.notifyFileChangesQueue = [] :=
  (notifyFileChanges_behavior
    { notifyFileChangesQueue := [], analysisFileChangesQueue := []
      isAnalyzing := false, notifyCallbackRunning := false
      analysisCallbackRunning := false }
    { path := { fsPath := "b.java" }, content := "y", saved := true }).2.1 rfl

/-- C9: the Analyze request built by runAnalysis has reset_cache true
exactly when no file paths are given (undefined or an empty list); every
non-empty file path list yields reset_cache false with included_paths the
fsPaths of those files. -/
theorem requestParams_reset_cache (labelSelector : String) :
    (∀ filePaths : Option (List Uri),
        (requestParams labelSelector filePaths).resetCache = true
          ↔ filePaths = none ∨ filePaths = some [])
    ∧ (∀ ps : List Uri, ps ≠ [] →
        (requestParams labelSelector (some ps)).resetCache = false
        ∧ (requestParams labelSelector (some ps)).includedPaths
            = some (ps.map Uri.fsPath)) := by
  constructor
  · intro fp
    cases fp with
    | none => simp [requestParams]
    | some l => cases l <;> simp [requestParams]
  · intro ps hps
    cases ps with
    | nil => exact absurd rfl hps
    | cons a t => exact ⟨by simp [requestParams], by simp [requestParams]⟩

theorem requestParams_reset_cache_witness :
    (requestParams "sel" (some [{ fsPath := "a.java" }])).resetCache = false
    ∧ (requestParams "sel" (some [{ fsPath := "a.java" }])).includedPaths
        = some (List.map Uri.fsPath [{ fsPath := "a.java" }]) :=
  (requestParams_reset_cache "sel").2 [{ fsPath := "a.java" }] (by decide)

/-- C10: an inbound my_progress notification appends its chat message to the
extension data exactly when the solution state is sent; in every other
solution state the notification is discarded and the extension data is left
unchanged. -/
theorem addSolutionChatMessage_only_when_sent (d : ExtensionData)
    (m : ChatMessage) (uidToken now : String) :
    (d.solutionState ≠ SolutionState.sent →
        addSolutionChatMessage d m uidToken now = d)
    ∧ (d.solutionState = SolutionState.sent →
        addSolutionChatMessage d m uidToken now
          = { d with chatMessages := d.chatMessages ++ [stampedMessage m uidToken now] }) := by
  constructor
  · intro h; simp [addSolutionChatMessage, h]
  · intro h; simp [addSolutionChatMessage, h]

theorem addSolutionChatMessage_only_when_sent_witness :
    addSolutionChatMessage
        { isAnalyzing := false, isFetchingSolution := true, isStartingServer := false
          serverState := ServerState.running, solutionState := SolutionState.sent
          chatMessages := [], ruleSets := [] }
        { messageToken := none, kind := "string", value := "v", timestamp := none }
        "scm0" "t0"
      = { isAnalyzing := false, isFetchingSolution := true, isStartingServer := false
          serverState := ServerState.running, solutionState := SolutionState.sent
          chatMessages :=
            [stampedMessage
              { messageToken := none, kind := "string", value := "v", timestamp := none }
              "scm0" "t0"]
          ruleSets := [] } :=
  (addSolutionChatMessage_only_when_sent
    { isAnalyzing := false, isFetchingSolution := true, isStartingServer := false
      serverState := ServerState.running, solutionState := SolutionState.sent
      chatMessages := [], ruleSets := [] }
    { messageToken := none, kind := "string", value := "v", timestamp := none }
    "scm0" "t0").2 rfl

end EditorExt
